import Mathlib

/-!
Shallow embedding of the catalog query client in `extension/popup.js`
(photo_manager repository).  The popup issues one HTTP GET per user
interaction against `/api/list` and interprets the structured response;
this file models the URL construction (popup.js lines 24-25), the
try/catch body of `loadPhotos` (lines 19-57) and the event handlers
(lines 178-210) as pure state transitions, and proves the query-contract
properties stated in the specification.

DOM construction (`createPhotoElement`), clipboard and download helpers
are out of scope per the specification; the grid is modelled as the list
of file values appended to it, one per element of `data.files`.
-/

namespace PhotoManager

/-- Parsed JSON values, the possible results of `response.json()`.
Numbers are modelled as integers (the specification declares every
numeric field of the protocol an integer).  `JSON.parse` yields objects
with unique keys (a duplicated key keeps the last value), so `obj`
carries a plain association list looked up by first match. -/
inductive Json where
  | null : Json
  | bool (b : Bool) : Json
  | num (n : Int) : Json
  | str (s : String) : Json
  | arr (elems : List Json) : Json
  | obj (fields : List (String × Json)) : Json

/-- First-match association-list lookup used for object property access. -/
def lookupField : List (String × Json) → String → Option Json
  | [], _ => none
  | (k, v) :: rest, key => if k = key then some v else lookupField rest key

/-- JS property access `j.key`: `none` models `undefined` (absent key, or
a non-object non-null receiver such as a number, string, boolean or
array, whose named properties here are undefined).  Access on `null`
throws in JS and is handled separately where it can occur. -/
def Json.getField : Json → String → Option Json
  | Json.obj fields, key => lookupField fields key
  | _, _ => none

/-- JS ToBoolean on a parsed JSON value: `null`, `false`, `0` and the
empty string are falsy; every object and array is truthy. -/
def Json.truthy : Json → Bool
  | Json.null => false
  | Json.bool b => b
  | Json.num n => !(n == 0)
  | Json.str s => !(s == "")
  | Json.arr _ => true
  | Json.obj _ => true

mutual
/-- JS String() conversion of a parsed JSON value, as used by
`new Error(x)` when `x` is not already a string. -/
def Json.jsToString : Json → String
  | Json.null => "null"
  | Json.bool b => if b then "true" else "false"
  | Json.num n => toString n
  | Json.str s => s
  | Json.arr xs => String.intercalate "," (jsToStringList xs)
  | Json.obj _ => "[object Object]"

/-- String() conversion of each element of an array:
`Array.prototype.join` maps a null element to the empty string, not to
"null". -/
def jsToStringList : List Json → List String
  | [] => []
  | Json.null :: js => "" :: jsToStringList js
  | j :: js => Json.jsToString j :: jsToStringList js
end

/-- Reads property `key` as a number: `some n` when present and numeric,
`none` (standing for JS `undefined` or a non-numeric value, all of which
compare false against numbers in the guards below) otherwise. -/
def Json.numField (j : Json) (key : String) : Option Int :=
  match j.getField key with
  | some (Json.num n) => some n
  | _ => none

/-- The literal `API_BASE_URL` of popup.js line 1. -/
def API_BASE_URL : String := "http://37.220.81.157:8088"

/-- JS template interpolation of a page value that is a number or
`undefined` (the global `currentPage` starts as the number 1 and is
overwritten by the response field `current_page`). -/
def pageStr : Option Int → String
  | some n => toString n
  | none => "undefined"

/-- popup.js line 24: `inStockFilter ? '&in_stock=true' : ''`. -/
def stockParam (inStockFilter : Bool) : String :=
  if inStockFilter then "&in_stock=true" else ""

/-- popup.js line 25: the request URL template
`API_BASE_URL/api/list?page=(page)&query=(query)(stockParam)`;
the query is interpolated verbatim, with no encoding step. -/
def buildUrl (page : Option Int) (query : String) (inStockFilter : Bool) : String :=
  API_BASE_URL ++ "/api/list?page=" ++ pageStr page ++ "&query=" ++ query
    ++ stockParam inStockFilter

/-- The response body as `response.json()` sees it: either it fails to
parse (the promise rejects with a SyntaxError carrying an
engine-specific message), or it yields a parsed JSON value. -/
inductive Body where
  | unparsable (parseError : String) : Body
  | json (j : Json) : Body

/-- The result of `await fetch(url)`: either the fetch itself rejects
(network/transport failure, engine-specific message), or a response
with a numeric status arrives together with its body. -/
inductive FetchOutcome where
  | transportError (message : String) : FetchOutcome
  | response (status : Nat) (body : Body) : FetchOutcome

/-- `Response.ok`: status in the inclusive range 200-299. -/
def respOk (status : Nat) : Bool := 200 ≤ status && status < 300

/-- popup.js line 32, the fallback operand of
`errorBody.detail || ...`: the template `Ошибка API: (status)`. -/
def fallbackMsg (status : Nat) : String := "Ошибка API: " ++ toString status

/-- TypeError message raised by `data.files.forEach(...)` (line 37)
when `data` is null or `data.files` is not an array; the exact text is
engine-specific and no property below depends on it. -/
def filesForEachErrorMsg : String := "data.files.forEach is not a function"

/-- TypeError message raised by `errorBody.detail` (line 32) when the
error body is JSON `null`; engine-specific text, never inspected. -/
def nullDetailErrorMsg : String := "Cannot read properties of null"

/-- popup.js line 32: the message of the Error thrown on a non-ok
response, `errorBody.detail || fallback` — the detail value when it is
truthy (converted by String() if not a string), the status-coded
fallback otherwise.  Property access on a JSON `null` body throws a
TypeError instead. -/
def apiErrorMessage (status : Nat) (body : Json) : String :=
  match body with
  | Json.null => nullDetailErrorMsg
  | j =>
    match j.getField "detail" with
    | some d => if d.truthy then d.jsToString else fallbackMsg status
    | none => fallbackMsg status

/-- TypeError message raised inside `createPhotoElement` at the
`file.stock` access (popup.js line 63) when a files element is JSON
`null`; engine-specific text, never inspected by a claim. -/
def nullItemErrorMsg : String := "Cannot read properties of null at createPhotoElement"

/-- The `data.files.forEach` loop of popup.js lines 37-40: items are
created by `createPhotoElement` and appended to the grid one at a
time.  `createPhotoElement` throws a TypeError at the `file.stock`
access (line 63) when the element is JSON `null`, leaving the items
already appended in place; every non-null JSON value renders without
throwing (property access on numbers, strings, booleans, arrays and
objects yields `undefined` rather than raising).  Returns the items
appended and whether the iteration raised. -/
def renderGrid : List Json → List Json × Bool
  | [] => ([], false)
  | Json.null :: _ => ([], true)
  | f :: rest =>
    match renderGrid rest with
    | (appended, raised) => (f :: appended, raised)

/-- Outcome of the try block of `loadPhotos` (lines 27-49): either it
runs to completion having appended the elements of `data.files` to the
grid and read the two pagination fields, or some step raised, with the
items appended to the grid before the raise and the raised error's
`.message`. -/
inductive TryResult where
  | ok (files : List Json) (currentPage totalPages : Option Int) : TryResult
  | err (appended : List Json) (message : String) : TryResult

/-- The try block of popup.js lines 27-49 on a given fetch outcome:
a transport failure rethrows the fetch rejection; a non-ok response
throws `new Error(errorBody.detail || fallback)` when its body parses
(line 31-32) and rethrows the parse error when it does not; an ok
response renders `data.files` element by element when it is an array —
raising mid-iteration, with the earlier items already appended, when a
null element is reached — then reads `current_page` / `total_pages`;
a missing or non-array `files` throws a TypeError at the `forEach`
call itself, before anything is appended. -/
def runTry : FetchOutcome → TryResult
  | FetchOutcome.transportError m => TryResult.err [] m
  | FetchOutcome.response status body =>
    if respOk status then
      match body with
      | Body.unparsable m => TryResult.err [] m
      | Body.json j =>
        match j.getField "files" with
        | some (Json.arr fs) =>
          match renderGrid fs with
          | (appended, true) => TryResult.err appended nullItemErrorMsg
          | (_, false) =>
              TryResult.ok fs (j.numField "current_page") (j.numField "total_pages")
        | _ => TryResult.err [] filesForEachErrorMsg
    else
      match body with
      | Body.unparsable m => TryResult.err [] m
      | Body.json j => TryResult.err [] (apiErrorMessage status j)

/-- JS comparison `a <= k` where `a` is a number or `undefined`
(comparisons against `undefined` are NaN comparisons, hence false). -/
def jsLe (a : Option Int) (k : Int) : Bool :=
  match a with
  | some n => decide (n ≤ k)
  | none => false

/-- JS comparison `a >= b` on number-or-undefined values. -/
def jsGe (a b : Option Int) : Bool :=
  match a, b with
  | some x, some y => decide (y ≤ x)
  | _, _ => false

/-- The mutable state visible to popup.js: the three globals
`currentPage`, `totalPages` (line 2-4; number or `undefined`),
`currentQuery` (line 3), `isStockFilterActive` (line 6), and the DOM
pieces the script writes: the grid children, the message text, the
page-info text and the two buttons' disabled flags. -/
structure UIState where
  currentPage : Option Int
  totalPages : Option Int
  currentQuery : String
  isStockFilterActive : Bool
  gridItems : List Json
  message : String
  pageInfo : String
  prevDisabled : Bool
  nextDisabled : Bool

/-- popup.js lines 20-21, run before the fetch: show the loading
message and clear the grid. -/
def clearStep (s : UIState) : UIState :=
  { s with message := "Загрузка...", gridItems := [] }

/-- popup.js lines 37-49 (success) and 51-56 (catch): apply the try
block's result to the cleared state.  On success the grid receives the
files, the pagination globals and displays are overwritten from the
response fields, and the message reports no results when the list is
empty; on error the grid holds whatever the try block appended before
the raise (nothing, except for a mid-render failure), and besides that
only the message and the two disabled flags change. -/
def applyResult (s0 : UIState) : TryResult → UIState
  | TryResult.ok fs cp tp =>
    { s0 with
      gridItems := fs
      currentPage := cp
      totalPages := tp
      pageInfo := "Страница " ++ pageStr cp ++ " из " ++ pageStr tp
      prevDisabled := jsLe cp 1
      nextDisabled := jsGe cp tp
      message := if fs.length == 0 then "Фотографии не найдены." else "" }
  | TryResult.err appended m =>
    { s0 with
      gridItems := appended
      message := "Ошибка: " ++ m
      prevDisabled := true
      nextDisabled := true }

/-- The whole of `loadPhotos` (popup.js lines 19-57) as a state
transition, given the outcome the environment produces for the fetch. -/
def loadPhotos (s : UIState) (outcome : FetchOutcome) : UIState :=
  applyResult (clearStep s) (runTry outcome)

/-- The argument tuple of a `loadPhotos` call — one listing request.
`page` is a JS number or `undefined`, matching the `currentPage`
global it is computed from. -/
structure ListingRequest where
  page : Option Int
  query : String
  inStock : Bool
deriving DecidableEq

/-- The URL the request fetches (popup.js lines 24-25). -/
def requestUrl (r : ListingRequest) : String :=
  buildUrl r.page r.query r.inStock

/-- A `loadPhotos` call under an environment mapping each request to
the outcome of fetching its URL. -/
def loadPhotosCall (env : ListingRequest → FetchOutcome)
    (s : UIState) (r : ListingRequest) : UIState :=
  loadPhotos s (env r)

/-- The user-interaction events wired up in popup.js lines 174-210:
the debounced search-input handler firing with the input's value, the
stock-checkbox change handler with the new checked flag, the two
pagination button clicks, and the initial DOMContentLoaded load. -/
inductive Event where
  | domContentLoaded : Event
  | searchDebounce (value : String) : Event
  | stockChange (checked : Bool) : Event
  | prevClick : Event
  | nextClick : Event

/-- One event handler firing (popup.js lines 178-210): returns the new
state and the listing request issued, if any.  The search handler first
assigns `currentQuery` (line 181) and the checkbox handler first
assigns `isStockFilterActive` (line 189), then both reload page 1; the
prev handler fires only when `currentPage > 1` (line 196) and requests
`currentPage - 1`; the next handler fires only when
`currentPage < totalPages` (line 202) and requests `currentPage + 1`;
DOMContentLoaded loads the current globals (line 209). -/
def step (env : ListingRequest → FetchOutcome) (s : UIState) :
    Event → UIState × Option ListingRequest
  | Event.domContentLoaded =>
      let r : ListingRequest := ⟨s.currentPage, s.currentQuery, s.isStockFilterActive⟩
      (loadPhotos s (env r), some r)
  | Event.searchDebounce v =>
      let s1 : UIState := { s with currentQuery := v }
      let r : ListingRequest := ⟨some 1, v, s1.isStockFilterActive⟩
      (loadPhotos s1 (env r), some r)
  | Event.stockChange c =>
      let s1 : UIState := { s with isStockFilterActive := c }
      let r : ListingRequest := ⟨some 1, s1.currentQuery, c⟩
      (loadPhotos s1 (env r), some r)
  | Event.prevClick =>
      match s.currentPage with
      | some n =>
          if 1 < n then
            let r : ListingRequest := ⟨some (n - 1), s.currentQuery, s.isStockFilterActive⟩
            (loadPhotos s (env r), some r)
          else (s, none)
      | none => (s, none)
  | Event.nextClick =>
      match s.currentPage, s.totalPages with
      | some a, some b =>
          if a < b then
            let r : ListingRequest := ⟨some (a + 1), s.currentQuery, s.isStockFilterActive⟩
            (loadPhotos s (env r), some r)
          else (s, none)
      | _, _ => (s, none)

/-- The initial state of popup.js lines 2-6: page 1, empty query,
filter off, empty grid and texts, buttons enabled. -/
def initState : UIState :=
  { currentPage := some 1
    totalPages := some 1
    currentQuery := ""
    isStockFilterActive := false
    gridItems := []
    message := ""
    pageInfo := ""
    prevDisabled := false
    nextDisabled := false }

/-- Runs a sequence of events from a state, collecting in order every
listing request the handlers issue. -/
def run (env : ListingRequest → FetchOutcome) :
    UIState → List Event → UIState × List ListingRequest
  | s, [] => (s, [])
  | s, e :: es =>
    ((run env (step env s e).1 es).1,
      (step env s e).2.toList ++ (run env (step env s e).1 es).2)

/-- An environment whose every completed (non-throwing) response
carries a numeric `current_page` that is at least 1 — the assumption
under which the page invariant is stated. -/
def goodEnv (env : ListingRequest → FetchOutcome) : Prop :=
  ∀ r fs cp tp, runTry (env r) = TryResult.ok fs cp tp → ∃ n, cp = some n ∧ 1 ≤ n

/-- The `currentPage` global holds a number that is at least 1. -/
def pageOk (s : UIState) : Prop := ∃ n, s.currentPage = some n ∧ 1 ≤ n

/-- The request asks for a numeric page that is at least 1. -/
def reqPageOk (r : ListingRequest) : Prop := ∃ n, r.page = some n ∧ 1 ≤ n

/-- Characters encodeURIComponent leaves untouched, by code point:
letters, digits, and `- _ . ! ~ * ' ( )`. -/
def isUnreservedCode (n : Nat) : Bool :=
  (65 ≤ n && n ≤ 90) || (97 ≤ n && n ≤ 122) || (48 ≤ n && n ≤ 57) ||
  n == 45 || n == 95 || n == 46 || n == 33 || n == 126 ||
  n == 42 || n == 39 || n == 40 || n == 41

/-- UTF-8 bytes of a code point. -/
def utf8Bytes (n : Nat) : List Nat :=
  if n < 128 then [n]
  else if n < 2048 then [192 + n / 64, 128 + n % 64]
  else if n < 65536 then [224 + n / 4096, 128 + n / 64 % 64, 128 + n % 64]
  else [240 + n / 262144, 128 + n / 4096 % 64, 128 + n / 64 % 64, 128 + n % 64]

/-- Uppercase hexadecimal digit. -/
def hexDigit (n : Nat) : Char := Char.ofNat (if n < 10 then 48 + n else 55 + n)

/-- Percent-escape for one byte, `%XX`. -/
def percentByte (b : Nat) : String :=
  String.mk [Char.ofNat 37, hexDigit (b / 16), hexDigit (b % 16)]

/-- Percent-encoding of one character. -/
def encodeChar (c : Char) : String :=
  if isUnreservedCode c.toNat then String.mk [c]
  else String.join ((utf8Bytes c.toNat).map percentByte)

/-- Follows the specification's words, not the source: the URL encoding
(JS `encodeURIComponent`) that the spec claims is applied to the search
string before it is placed into the `query` parameter.  The source
applies no such step; this definition exists to compare the two. -/
def specUrlEncode (s : String) : String :=
  String.join (s.data.map encodeChar)

/-! Helper lemmas about the try block, shared by several theorems. -/

/-- Factual shape of the try block on a non-ok response with a parsed
JSON body: it throws with the computed API error message. -/
theorem runTry_nonok_json (status : Nat) (j : Json) (h : respOk status = false) :
    runTry (FetchOutcome.response status (Body.json j))
      = TryResult.err [] (apiErrorMessage status j) := by
  simp [runTry, h]

/-- Factual shape of the try block on a non-ok response whose body does
not parse: the parse error propagates. -/
theorem runTry_nonok_unparsable (status : Nat) (m : String) (h : respOk status = false) :
    runTry (FetchOutcome.response status (Body.unparsable m)) = TryResult.err [] m := by
  simp [runTry, h]

/-! Claim theorems. -/

/-- C1 counterexample: at HTTP 500 with an unparsable body, the
surfaced message is the JSON parse error (here the engine text
"Unexpected end of JSON input"), not the generic fallback referencing
status 500 — `response.json()` rejects before the fallback expression
on popup.js line 32 is ever evaluated. -/
theorem unparsable_body_not_status_fallback :
    (loadPhotos initState
        (FetchOutcome.response 500 (Body.unparsable "Unexpected end of JSON input"))).message
      = "Ошибка: Unexpected end of JSON input"
    ∧ (loadPhotos initState
        (FetchOutcome.response 500 (Body.unparsable "Unexpected end of JSON input"))).message
      ≠ "Ошибка: " ++ fallbackMsg 500 :=
  ⟨rfl, by decide⟩

/-- C1 (amended): for every non-2xx response whose body does not parse
as JSON, the surfaced error is the parse error's own message, not the
status-coded fallback; the generic fallback referencing the numeric
status is surfaced when the body parses as a JSON object carrying no
`detail` field. -/
theorem nonok_unparsable_surfaces_parse_error (s : UIState) (status : Nat)
    (parseErr : String) (fields : List (String × Json))
    (hok : respOk status = false)
    (hnd : lookupField fields "detail" = none) :
    (loadPhotos s (FetchOutcome.response status (Body.unparsable parseErr))).message
      = "Ошибка: " ++ parseErr
    ∧ (loadPhotos s (FetchOutcome.response status (Body.json (Json.obj fields)))).message
      = "Ошибка: " ++ fallbackMsg status := by
  constructor
  · have h := runTry_nonok_unparsable status parseErr hok
    unfold loadPhotos; rw [h]; rfl
  · have h := runTry_nonok_json status (Json.obj fields) hok
    have hmsg : apiErrorMessage status (Json.obj fields) = fallbackMsg status := by
      simp [apiErrorMessage, Json.getField, hnd]
    rw [hmsg] at h
    unfold loadPhotos; rw [h]; rfl

/-- C1 witness: the amended statement at status 500, a concrete parse
error and an empty error object. -/
theorem nonok_unparsable_surfaces_parse_error_witness :
    respOk 500 = false ∧ lookupField [] "detail" = none
    ∧ ((loadPhotos initState
          (FetchOutcome.response 500 (Body.unparsable "Unexpected token <"))).message
        = "Ошибка: " ++ "Unexpected token <"
      ∧ (loadPhotos initState
          (FetchOutcome.response 500 (Body.json (Json.obj [])))).message
        = "Ошибка: " ++ fallbackMsg 500) :=
  ⟨by decide, rfl,
    nonok_unparsable_surfaces_parse_error initState 500 "Unexpected token <" []
      (by decide) rfl⟩

/-- C2 counterexample: for the query "a b", the constructed URL carries
the raw text "a b" — not the percent-encoded "a%20b" that URL-encoding
(the spec's claim) would produce. -/
theorem query_not_url_encoded :
    buildUrl (some 1) "a b" false
      = "http://37.220.81.157:8088/api/list?page=1&query=a b"
    ∧ specUrlEncode "a b" = "a%20b"
    ∧ buildUrl (some 1) "a b" false
      ≠ (API_BASE_URL ++ "/api/list?page=1&query=") ++ specUrlEncode "a b" :=
  ⟨rfl, rfl, by decide⟩

/-- C2 (amended): the search string is interpolated verbatim — with no
URL-encoding step — between the fixed "&query=" separator and the stock
suffix; the empty string is permitted and yields an empty `query`
parameter (no filter). -/
theorem query_placed_verbatim (page : Option Int) (query : String) (inStock : Bool) :
    buildUrl page query inStock
      = (API_BASE_URL ++ "/api/list?page=" ++ pageStr page ++ "&query=") ++ query
          ++ stockParam inStock :=
  rfl

/-- C3: on a non-2xx response whose JSON body carries a non-empty
string `detail`, the thrown Error's message is that string exactly, and
the UI displays it behind the fixed "Ошибка: " label. -/
theorem nonok_detail_message_exact (s : UIState) (status : Nat)
    (fields : List (String × Json)) (d : String)
    (hok : respOk status = false)
    (hd : lookupField fields "detail" = some (Json.str d))
    (hne : d ≠ "") :
    runTry (FetchOutcome.response status (Body.json (Json.obj fields)))
      = TryResult.err [] d
    ∧ (loadPhotos s (FetchOutcome.response status (Body.json (Json.obj fields)))).message
      = "Ошибка: " ++ d := by
  have hmsg : apiErrorMessage status (Json.obj fields) = d := by
    simp [apiErrorMessage, Json.getField, hd, Json.truthy, Json.jsToString, hne]
  have h := runTry_nonok_json status (Json.obj fields) hok
  rw [hmsg] at h
  exact ⟨h, by unfold loadPhotos; rw [h]; rfl⟩

/-- C3 witness: HTTP 500 with body containing detail "db down". -/
theorem nonok_detail_message_exact_witness :
    respOk 500 = false
    ∧ lookupField [("detail", Json.str "db down")] "detail" = some (Json.str "db down")
    ∧ "db down" ≠ ""
    ∧ (runTry (FetchOutcome.response 500
          (Body.json (Json.obj [("detail", Json.str "db down")])))
        = TryResult.err [] "db down"
      ∧ (loadPhotos initState (FetchOutcome.response 500
          (Body.json (Json.obj [("detail", Json.str "db down")])))).message
        = "Ошибка: " ++ "db down") :=
  ⟨by decide, rfl, by decide,
    nonok_detail_message_exact initState 500 [("detail", Json.str "db down")] "db down"
      (by decide) rfl (by decide)⟩

/-- C4: with the stock filter active the URL carries the literal suffix
"&in_stock=true"; with the filter off the URL ends at the query text —
no `in_stock` parameter of any value is emitted. -/
theorem in_stock_param_emission (page : Option Int) (query : String) :
    buildUrl page query true
      = API_BASE_URL ++ "/api/list?page=" ++ pageStr page ++ "&query=" ++ query
          ++ "&in_stock=true"
    ∧ buildUrl page query false
      = API_BASE_URL ++ "/api/list?page=" ++ pageStr page ++ "&query=" ++ query := by
  constructor <;> simp [buildUrl, stockParam]

/-- C5: for every page number at least 1, the URL's `page` parameter is
exactly the decimal rendering of that number — the page value is passed
through unchanged, with no clamping, offset or re-mapping. -/
theorem page_param_exact (n : Int) (query : String) (inStock : Bool) (_h : 1 ≤ n) :
    buildUrl (some n) query inStock
      = API_BASE_URL ++ "/api/list?page=" ++ toString n ++ "&query=" ++ query
          ++ stockParam inStock :=
  rfl

/-- C5 witness: page 2 with query "shoe" and no stock filter. -/
theorem page_param_exact_witness :
    (1 : Int) ≤ 2
    ∧ buildUrl (some 2) "shoe" false
      = API_BASE_URL ++ "/api/list?page=" ++ toString (2 : Int) ++ "&query=" ++ "shoe"
          ++ stockParam false :=
  ⟨by decide, page_param_exact 2 "shoe" false (by decide)⟩

/-- C6: after a successful response — one whose body carries an array
`files` that renders to completion (no null element raising
mid-iteration) and numeric `current_page` / `total_pages` — the
pagination globals and the page-info display are taken from those
response fields; the requested page `r` plays no part in the resulting
state, so a request for page 5 answered with current_page 3 leaves the
client on page 3. -/
theorem pagination_follows_response (env : ListingRequest → FetchOutcome)
    (s : UIState) (r : ListingRequest) (j : Json) (status : Nat)
    (fs : List Json) (cp tp : Int)
    (henv : env r = FetchOutcome.response status (Body.json j))
    (hok : respOk status = true)
    (hf : j.getField "files" = some (Json.arr fs))
    (hrender : (renderGrid fs).2 = false)
    (hcp : j.getField "current_page" = some (Json.num cp))
    (htp : j.getField "total_pages" = some (Json.num tp)) :
    (loadPhotosCall env s r).currentPage = some cp
    ∧ (loadPhotosCall env s r).totalPages = some tp
    ∧ (loadPhotosCall env s r).pageInfo
      = "Страница " ++ toString cp ++ " из " ++ toString tp := by
  have hrt : runTry (env r) = TryResult.ok fs (some cp) (some tp) := by
    rw [henv]
    cases hre : renderGrid fs with
    | mk g0 b =>
        rw [hre] at hrender
        simp only at hrender
        subst hrender
        simp [runTry, hok, hf, Json.numField, hcp, htp, hre]
  unfold loadPhotosCall loadPhotos
  rw [hrt]
  exact ⟨rfl, rfl, rfl⟩

/-- A server body reporting current_page 3 of 7 with no files, used to
exercise the authoritative-pagination theorem. -/
def clampBody : Json :=
  Json.obj [("files", Json.arr []), ("current_page", Json.num 3),
            ("total_pages", Json.num 7)]

/-- An environment that answers every request with status 200 and
`clampBody`, in particular a request for page 5. -/
def clampEnv : ListingRequest → FetchOutcome := fun _ =>
  FetchOutcome.response 200 (Body.json clampBody)

/-- C6 witness: a request for page 5 answered with current_page 3 and
total_pages 7 leaves the client on page 3 of 7. -/
theorem pagination_follows_response_witness :
    clampEnv ⟨some 5, "", false⟩ = FetchOutcome.response 200 (Body.json clampBody)
    ∧ respOk 200 = true
    ∧ clampBody.getField "files" = some (Json.arr [])
    ∧ (renderGrid []).2 = false
    ∧ clampBody.getField "current_page" = some (Json.num 3)
    ∧ clampBody.getField "total_pages" = some (Json.num 7)
    ∧ ((loadPhotosCall clampEnv initState ⟨some 5, "", false⟩).currentPage = some 3
      ∧ (loadPhotosCall clampEnv initState ⟨some 5, "", false⟩).totalPages = some 7
      ∧ (loadPhotosCall clampEnv initState ⟨some 5, "", false⟩).pageInfo
        = "Страница " ++ toString (3 : Int) ++ " из " ++ toString (7 : Int)) :=
  ⟨rfl, by decide, rfl, rfl, rfl, rfl,
    pagination_follows_response clampEnv initState ⟨some 5, "", false⟩ clampBody 200
      [] 3 7 rfl (by decide) rfl rfl rfl rfl⟩

/-- Preservation of the page invariant through one `loadPhotos` call:
a completed response overwrites `currentPage` with a number at least 1
by assumption, and the catch branch leaves `currentPage` untouched. -/
theorem loadPhotos_pageOk (s : UIState) (outcome : FetchOutcome)
    (hg : ∀ fs cp tp, runTry outcome = TryResult.ok fs cp tp → ∃ n, cp = some n ∧ 1 ≤ n)
    (hs : pageOk s) : pageOk (loadPhotos s outcome) := by
  cases hrt : runTry outcome with
  | ok fs cp tp =>
      obtain ⟨n, hcp, hn⟩ := hg fs cp tp hrt
      refine ⟨n, ?_, hn⟩
      unfold loadPhotos; rw [hrt]; exact hcp
  | err g m =>
      obtain ⟨n, hcp, hn⟩ := hs
      refine ⟨n, ?_, hn⟩
      unfold loadPhotos; rw [hrt]; exact hcp

/-- One event handler preserves the page invariant and only ever issues
requests for a numeric page at least 1. -/
theorem step_pageOk (env : ListingRequest → FetchOutcome) (hg : goodEnv env)
    (s : UIState) (e : Event) (hs : pageOk s) :
    pageOk (step env s e).1 ∧ ∀ r, (step env s e).2 = some r → reqPageOk r := by
  obtain ⟨n, hcp, hn⟩ := hs
  cases e with
  | domContentLoaded =>
      refine ⟨loadPhotos_pageOk _ _ (fun fs cp tp h => hg _ fs cp tp h) ⟨n, hcp, hn⟩, ?_⟩
      intro r hr
      simp only [step, Option.some.injEq] at hr
      exact ⟨n, hr ▸ hcp, hn⟩
  | searchDebounce v =>
      refine ⟨loadPhotos_pageOk _ _ (fun fs cp tp h => hg _ fs cp tp h) ⟨n, hcp, hn⟩, ?_⟩
      intro r hr
      simp only [step, Option.some.injEq] at hr
      exact ⟨1, hr ▸ rfl, le_refl 1⟩
  | stockChange c =>
      refine ⟨loadPhotos_pageOk _ _ (fun fs cp tp h => hg _ fs cp tp h) ⟨n, hcp, hn⟩, ?_⟩
      intro r hr
      simp only [step, Option.some.injEq] at hr
      exact ⟨1, hr ▸ rfl, le_refl 1⟩
  | prevClick =>
      by_cases h1 : 1 < n
      · constructor
        · have := loadPhotos_pageOk s
            (env ⟨some (n - 1), s.currentQuery, s.isStockFilterActive⟩)
            (fun fs cp tp h => hg _ fs cp tp h) ⟨n, hcp, hn⟩
          simpa [step, hcp, h1] using this
        · intro r hr
          simp only [step, hcp, h1, if_true, Option.some.injEq] at hr
          exact ⟨n - 1, hr ▸ rfl, by omega⟩
      · constructor
        · have heq : (step env s Event.prevClick).1 = s := by simp [step, hcp, h1]
          rw [heq]; exact ⟨n, hcp, hn⟩
        · intro r hr
          simp [step, hcp, h1] at hr
  | nextClick =>
      cases htp : s.totalPages with
      | none =>
          constructor
          · have heq : (step env s Event.nextClick).1 = s := by simp [step, hcp, htp]
            rw [heq]; exact ⟨n, hcp, hn⟩
          · intro r hr
            simp [step, hcp, htp] at hr
      | some b =>
          by_cases h1 : n < b
          · constructor
            · have := loadPhotos_pageOk s
                (env ⟨some (n + 1), s.currentQuery, s.isStockFilterActive⟩)
                (fun fs cp tp h => hg _ fs cp tp h) ⟨n, hcp, hn⟩
              simpa [step, hcp, htp, h1] using this
            · intro r hr
              simp only [step, hcp, htp, h1, if_true, Option.some.injEq] at hr
              exact ⟨n + 1, hr ▸ rfl, by omega⟩
          · constructor
            · have heq : (step env s Event.nextClick).1 = s := by
                simp [step, hcp, htp, h1]
              rw [heq]; exact ⟨n, hcp, hn⟩
            · intro r hr
              simp [step, hcp, htp, h1] at hr

/-- Every request collected along a run from a state satisfying the
page invariant asks for a page at least 1. -/
theorem run_reqPageOk (env : ListingRequest → FetchOutcome) (hg : goodEnv env) :
    ∀ (es : List Event) (s : UIState), pageOk s →
      ∀ r ∈ (run env s es).2, reqPageOk r := by
  intro es
  induction es with
  | nil => intro s _ r hr; simp [run] at hr
  | cons e es ih =>
      intro s hs r hr
      obtain ⟨h1, h2⟩ := step_pageOk env hg s e hs
      simp only [run, List.mem_append] at hr
      rcases hr with hmem | hmem
      · exact h2 r (Option.mem_toList.mp hmem)
      · exact ih (step env s e).1 h1 r hmem

/-- C7: from the initial state, under any environment whose completed
responses carry a numeric current_page at least 1, every listing
request issued by any sequence of UI events asks for a numeric page at
least 1: the initial load and both reload handlers request page 1, the
previous-page handler fires only above page 1, and the next-page
handler only increments. -/
theorem ui_requests_page_ge_one (env : ListingRequest → FetchOutcome)
    (events : List Event) (hg : goodEnv env) :
    ∀ r ∈ (run env initState events).2, ∃ n, r.page = some n ∧ 1 ≤ n := by
  intro r hr
  exact run_reqPageOk env hg events initState ⟨1, rfl, le_refl 1⟩ r hr

/-- The server body `files: [], current_page: 1, total_pages: 1`. -/
def unitListingBody : Json :=
  Json.obj [("files", Json.arr []), ("current_page", Json.num 1),
            ("total_pages", Json.num 1)]

/-- An environment answering every request with an empty page 1 of 1,
used to exercise the request-page invariant. -/
def unitEnv : ListingRequest → FetchOutcome := fun _ =>
  FetchOutcome.response 200 (Body.json unitListingBody)

/-- Every completed response of `unitEnv` carries current_page 1. -/
theorem unitEnv_good : goodEnv unitEnv := by
  intro r fs cp tp h
  have h2 : TryResult.ok ([] : List Json) (some 1) (some 1) = TryResult.ok fs cp tp := h
  injection h2 with e1 e2 e3
  exact ⟨1, e2.symm, le_refl 1⟩

/-- C7 witness: along the event sequence consisting of the initial
load under `unitEnv`, the issued request (page 1, empty query, filter
off) asks for page 1. -/
theorem ui_requests_page_ge_one_witness :
    goodEnv unitEnv
    ∧ ∃ n, (ListingRequest.mk (some 1) "" false).page = some n ∧ 1 ≤ n :=
  ⟨unitEnv_good,
    ui_requests_page_ge_one unitEnv [Event.domContentLoaded] unitEnv_good
      (ListingRequest.mk (some 1) "" false) (by decide)⟩

/-- A 2xx body whose files array is `[{}, null]`: rendering appends
the first item, then `createPhotoElement` throws at the null. -/
def midRenderBody : Json :=
  Json.obj [("files", Json.arr [Json.obj [], Json.null]),
            ("current_page", Json.num 1), ("total_pages", Json.num 1)]

/-- C8 counterexample: a 2xx response with files `[{}, null]` is a
failed call — `createPhotoElement` throws a TypeError at `file.stock`
(popup.js line 63) on the null element — yet the grid ends the call
holding the first, already-appended item, NOT empty, alongside the
error message. -/
theorem mid_render_failure_nonempty_grid :
    runTry (FetchOutcome.response 200 (Body.json midRenderBody))
      = TryResult.err [Json.obj []] nullItemErrorMsg
    ∧ (loadPhotos initState (FetchOutcome.response 200 (Body.json midRenderBody))).gridItems
      = [Json.obj []]
    ∧ (loadPhotos initState (FetchOutcome.response 200 (Body.json midRenderBody))).gridItems
      ≠ []
    ∧ (loadPhotos initState (FetchOutcome.response 200 (Body.json midRenderBody))).message
      = "Ошибка: " ++ nullItemErrorMsg :=
  ⟨rfl, rfl, fun hc => List.noConfusion hc, rfl⟩

/-- C8 (amended): every failed `loadPhotos` call ends with the grid
holding exactly the items the failing call itself appended before its
try block raised — and never the results of an earlier call, which were
cleared on entry (popup.js line 21) and are not restored by the catch
branch, so stale results never accompany the error message.  The
appended items are none for a transport failure or an unparsable body
(any status), none for a non-2xx response with a parsed body, and the
prefix of files rendered before a null element for a mid-render
failure. -/
theorem failed_load_grid_no_stale (s : UIState) (outcome : FetchOutcome)
    (g : List Json) (m : String)
    (h : runTry outcome = TryResult.err g m) :
    ((loadPhotos s outcome).gridItems = g
      ∧ (loadPhotos s outcome).message = "Ошибка: " ++ m)
    ∧ (∀ tm, runTry (FetchOutcome.transportError tm) = TryResult.err [] tm)
    ∧ (∀ status pe, runTry (FetchOutcome.response status (Body.unparsable pe))
        = TryResult.err [] pe)
    ∧ (∀ status j, respOk status = false →
        runTry (FetchOutcome.response status (Body.json j))
          = TryResult.err [] (apiErrorMessage status j)) := by
  refine ⟨?_, fun tm => rfl, fun status pe => ?_, fun status j hok => ?_⟩
  · unfold loadPhotos; rw [h]; exact ⟨rfl, rfl⟩
  · cases hok : respOk status <;> simp [runTry, hok]
  · exact runTry_nonok_json status j hok

/-- C8 witness: the amended statement at the mid-render failure — the
grid ends with exactly the one item appended before the throw. -/
theorem failed_load_grid_no_stale_witness :
    runTry (FetchOutcome.response 200 (Body.json midRenderBody))
      = TryResult.err [Json.obj []] nullItemErrorMsg
    ∧ ((loadPhotos initState
          (FetchOutcome.response 200 (Body.json midRenderBody))).gridItems
        = [Json.obj []]
      ∧ (loadPhotos initState
          (FetchOutcome.response 200 (Body.json midRenderBody))).message
        = "Ошибка: " ++ nullItemErrorMsg) :=
  ⟨rfl,
    (failed_load_grid_no_stale initState
      (FetchOutcome.response 200 (Body.json midRenderBody))
      [Json.obj []] nullItemErrorMsg rfl).1⟩

/-- C9: a 2xx response with body `files: [], current_page: 1,
total_pages: 1` takes the success path: the no-results message is
shown, the grid is empty, pagination state and display are updated to
page 1 of 1 and both buttons are disabled. -/
theorem empty_listing_no_results (s : UIState) (status : Nat)
    (hok : respOk status = true) :
    runTry (FetchOutcome.response status (Body.json unitListingBody))
      = TryResult.ok [] (some 1) (some 1)
    ∧ (loadPhotos s (FetchOutcome.response status (Body.json unitListingBody))).message
      = "Фотографии не найдены."
    ∧ (loadPhotos s (FetchOutcome.response status (Body.json unitListingBody))).gridItems = []
    ∧ (loadPhotos s (FetchOutcome.response status (Body.json unitListingBody))).currentPage
      = some 1
    ∧ (loadPhotos s (FetchOutcome.response status (Body.json unitListingBody))).totalPages
      = some 1
    ∧ (loadPhotos s (FetchOutcome.response status (Body.json unitListingBody))).pageInfo
      = "Страница 1 из 1"
    ∧ (loadPhotos s (FetchOutcome.response status (Body.json unitListingBody))).prevDisabled
      = true
    ∧ (loadPhotos s (FetchOutcome.response status (Body.json unitListingBody))).nextDisabled
      = true := by
  have hrt : runTry (FetchOutcome.response status (Body.json unitListingBody))
      = TryResult.ok [] (some 1) (some 1) := by
    simp [runTry, hok, unitListingBody, Json.getField, lookupField, Json.numField,
      renderGrid]
  refine ⟨hrt, ?_, ?_, ?_, ?_, ?_, ?_, ?_⟩ <;> (unfold loadPhotos; rw [hrt]) <;> rfl

/-- C9 witness: the empty listing at status 200. -/
theorem empty_listing_no_results_witness :
    respOk 200 = true
    ∧ (loadPhotos initState
        (FetchOutcome.response 200 (Body.json unitListingBody))).message
      = "Фотографии не найдены."
    ∧ (loadPhotos initState
        (FetchOutcome.response 200 (Body.json unitListingBody))).gridItems = [] :=
  ⟨by decide,
    (empty_listing_no_results initState 200 (by decide)).2.1,
    (empty_listing_no_results initState 200 (by decide)).2.2.1⟩

/-- C10: the catch branch of `loadPhotos` (popup.js lines 51-56) leaves
`currentPage`, `totalPages`, the page-info display, the query and the
filter flag exactly as they were before the call, mutating only the
message text and the two buttons' disabled flags — a later prev/next
click still paginates relative to the last completed response. -/
theorem failed_load_preserves_pagination (s : UIState) (outcome : FetchOutcome)
    (g : List Json) (m : String) (h : runTry outcome = TryResult.err g m) :
    (loadPhotos s outcome).currentPage = s.currentPage
    ∧ (loadPhotos s outcome).totalPages = s.totalPages
    ∧ (loadPhotos s outcome).pageInfo = s.pageInfo
    ∧ (loadPhotos s outcome).currentQuery = s.currentQuery
    ∧ (loadPhotos s outcome).isStockFilterActive = s.isStockFilterActive
    ∧ (loadPhotos s outcome).prevDisabled = true
    ∧ (loadPhotos s outcome).nextDisabled = true := by
  unfold loadPhotos; rw [h]
  exact ⟨rfl, rfl, rfl, rfl, rfl, rfl, rfl⟩

/-- C10 witness: a 404 with a detail-less JSON object body preserves
the pagination globals of the initial state. -/
theorem failed_load_preserves_pagination_witness :
    runTry (FetchOutcome.response 404 (Body.json (Json.obj [])))
      = TryResult.err [] ("Ошибка API: " ++ toString 404)
    ∧ ((loadPhotos initState
          (FetchOutcome.response 404 (Body.json (Json.obj [])))).currentPage
        = initState.currentPage
      ∧ (loadPhotos initState
          (FetchOutcome.response 404 (Body.json (Json.obj [])))).totalPages
        = initState.totalPages) :=
  ⟨rfl,
    (failed_load_preserves_pagination initState
      (FetchOutcome.response 404 (Body.json (Json.obj [])))
      [] ("Ошибка API: " ++ toString 404) rfl).1,
    (failed_load_preserves_pagination initState
      (FetchOutcome.response 404 (Body.json (Json.obj [])))
      [] ("Ошибка API: " ++ toString 404) rfl).2.1⟩

end PhotoManager
